import Mathlib

/-!
Verification of the whats-that-sound job pipeline and review frontend.

The repository ships the React frontend (App.tsx, DecisionPanel, ReadyList,
WorkerStatus, PathsHeader), the Procfile and the Makefile; the Python backend
(job store, scan/analyze/move workers, decision gateway, status aggregator)
is referenced by the Procfile and the spec but its sources are not in the
tree.  Backend behaviour is therefore modelled from the spec, each such
definition carrying a doc comment starting with `Modelled from the spec:`.
Frontend behaviour is embedded directly from the TSX sources.
-/

namespace WhatsThatSound

/-- Job status, from the data model (spec section 3) and the status strings
used throughout the frontend (App.tsx, WorkerStatus.tsx, DebugJobsPanel). -/
inductive Status
  | queued
  | analyzing
  | ready
  | accepted
  | moving
  | skipped
  | error
  | completed
  deriving DecidableEq, Repr, Fintype

/-- Trigger column of the transition table in spec section 4.1: which actor
causes each transition. -/
inductive Trigger
  | scanDiscover
  | analyzeClaim
  | analyzeSucceed
  | analyzeFail
  | humanAccept
  | humanReconsider
  | humanSkip
  | moveClaim
  | moveSucceed
  | moveFail
  deriving DecidableEq, Repr, Fintype

/-- The edges (from, to) of the transition table in spec section 4.1,
excluding the creation edge (none, queued) which has no source status. -/
def transitionTable : List (Status × Status) :=
  [ (Status.queued, Status.analyzing),
    (Status.analyzing, Status.ready),
    (Status.analyzing, Status.error),
    (Status.ready, Status.accepted),
    (Status.ready, Status.analyzing),
    (Status.ready, Status.skipped),
    (Status.error, Status.analyzing),
    (Status.accepted, Status.moving),
    (Status.moving, Status.completed),
    (Status.moving, Status.error) ]

/-- Modelled from the spec: the job state machine of section 4.1 (the worker
sources are not in the tree).  Given the current status and a trigger, the
next status, or none when the table has no such edge. -/
def step : Status → Trigger → Option Status
  | Status.queued, Trigger.analyzeClaim => some Status.analyzing
  | Status.analyzing, Trigger.analyzeSucceed => some Status.ready
  | Status.analyzing, Trigger.analyzeFail => some Status.error
  | Status.ready, Trigger.humanAccept => some Status.accepted
  | Status.ready, Trigger.humanReconsider => some Status.analyzing
  | Status.ready, Trigger.humanSkip => some Status.skipped
  | Status.error, Trigger.humanReconsider => some Status.analyzing
  | Status.accepted, Trigger.moveClaim => some Status.moving
  | Status.moving, Trigger.moveSucceed => some Status.completed
  | Status.moving, Trigger.moveFail => some Status.error
  | _, _ => none

/-- The triggers that encode a human decision (spec sections 4.1 and 4.4):
accept, reconsider and skip.  All other triggers are automatic worker steps. -/
def isHumanTrigger : Trigger → Bool
  | Trigger.humanAccept => true
  | Trigger.humanReconsider => true
  | Trigger.humanSkip => true
  | _ => false

/-- A proposal year as the frontend types allow it (types.ts: year may be a
string or a number).  JS numbers are restricted to integers here; every year
value the system produces is integral. -/
inductive YearVal
  | num (n : Int)
  | str (s : String)
  deriving DecidableEq, Repr

/-- Analyzer or human-edited proposal (types.ts Decision.proposal and spec
section 3): artist, album, year, release type and reasoning, each optional
(absence of a field means unknown). -/
structure Proposal where
  artist : Option String := none
  album : Option String := none
  year : Option YearVal := none
  release_type : Option String := none
  reasoning : Option String := none
  deriving DecidableEq, Repr

/-- Folder snapshot captured at analysis time (spec section 3, types.ts
Decision.metadata), file entries reduced to their display string. -/
structure FolderMetadata where
  folder_name : String := ""
  total_files : Nat := 0
  files : List String := []
  deriving DecidableEq, Repr

/-- Modelled from the spec: a Job record of the Job Store (spec section 3;
the store sources are not in the tree).  Timestamps are omitted: no claim
refers to them. -/
structure Job where
  id : Nat := 0
  folder_path : String := ""
  job_type : String := ""
  status : Status := Status.queued
  metadata : Option FolderMetadata := none
  proposal : Option Proposal := none
  error : Option String := none
  feedback : Option String := none
  deriving DecidableEq, Repr

/-- Modelled from the spec: the Job Store atomic claim (spec section 4.1), a
compare-and-swap on (id, expected status) to a new status.  Returns whether
the claim succeeded together with the resulting store; a stale expected
status fails silently and leaves the store unchanged. -/
def claimJob (store : List Job) (id : Nat) (expected nw : Status) :
    Bool × List Job :=
  match store.find? (fun j => j.id == id) with
  | some j =>
      if j.status = expected then
        (true, store.map (fun k => if k.id = id then { k with status := nw } else k))
      else
        (false, store)
  | none => (false, store)

/-- A human verdict against a job (spec section 4.4, api.ts postDecision):
accept with an optional proposal override, reconsider with feedback text,
or skip. -/
inductive Verdict
  | accept (override : Option Proposal)
  | reconsider (feedback : String)
  | skip
  deriving DecidableEq, Repr

/-- Outcome of applying a verdict: the updated job, or a conflict rejection
(spec section 7, Conflict taxon). -/
inductive DecisionOutcome
  | ok (updated : Job)
  | conflict
  deriving DecidableEq, Repr

/-- The statuses in which a verdict may be applied (spec section 4.4): all
three verdicts require ready; reconsider is also allowed from error. -/
def verdictEligible (j : Job) : Verdict → Bool
  | Verdict.accept _ => j.status == Status.ready
  | Verdict.reconsider _ => j.status == Status.ready || j.status == Status.error
  | Verdict.skip => j.status == Status.ready

/-- Modelled from the spec: the Decision Gateway (spec section 4.4; the
gateway sources are not in the tree).  Accept replaces the stored proposal
with the override when one is supplied and transitions to accepted;
reconsider stores the feedback, clears the error and transitions along the
section 4.1 edge back to analysis; skip transitions to skipped.  Any verdict
against a job not in an eligible status is rejected with a conflict. -/
def applyVerdict (j : Job) : Verdict → DecisionOutcome
  | Verdict.accept override =>
      if j.status = Status.ready then
        DecisionOutcome.ok
          { j with
            status := Status.accepted,
            proposal := match override with
              | some p => some p
              | none => j.proposal }
      else DecisionOutcome.conflict
  | Verdict.reconsider fb =>
      if j.status = Status.ready ∨ j.status = Status.error then
        DecisionOutcome.ok
          { j with status := Status.analyzing, feedback := some fb, error := none }
      else DecisionOutcome.conflict
  | Verdict.skip =>
      if j.status = Status.ready then
        DecisionOutcome.ok { j with status := Status.skipped }
      else DecisionOutcome.conflict

/-- All eight job statuses, the partition classes of the aggregator counts. -/
def allStatuses : List Status :=
  [ Status.queued, Status.analyzing, Status.ready, Status.accepted,
    Status.moving, Status.skipped, Status.error, Status.completed ]

/-- Modelled from the spec: the per-status count of the Status Aggregator
(spec sections 4.6 and 9: counts are a pure aggregation over the Job Store;
the aggregator sources are not in the tree). -/
def countStatus (jobs : List Job) (s : Status) : Nat :=
  (jobs.filter (fun j => j.status == s)).length

/-- Modelled from the spec: the counts map of an aggregator snapshot, one
entry per status. -/
def snapshotCounts (jobs : List Job) : List (Status × Nat) :=
  allStatuses.map (fun s => (s, countStatus jobs s))

/-- Modelled from the spec: the total of an aggregator snapshot, all jobs
ever created, terminal ones included. -/
def snapshotTotal (jobs : List Job) : Nat := jobs.length

/-- Modelled from the spec: the processed figure of an aggregator snapshot,
the jobs in a terminal status (skipped or completed). -/
def snapshotProcessed (jobs : List Job) : Nat :=
  (jobs.filter (fun j => j.status == Status.skipped || j.status == Status.completed)).length

/-- The sum of all count values of an aggregator snapshot. -/
def sumOfCounts (jobs : List Job) : Nat :=
  ((snapshotCounts jobs).map Prod.snd).sum

/-- A ready-queue entry (types.ts ReadyItem): folder path and display name. -/
structure ReadyItem where
  path : String
  name : String
  deriving DecidableEq, Repr

/-- The list items the ReadyList component renders (ReadyList.tsx): the
slice of the first ten ready items, in list order.  App.tsx renders the same
slice in its inline ready panel. -/
def readyListRendered (ready : List ReadyItem) : List ReadyItem :=
  ready.take 10

/-- The count badge of the ReadyList component (ReadyList.tsx): rendered
with the full list length exactly when the list is nonempty. -/
def readyCountBadge (ready : List ReadyItem) : Option Nat :=
  if ready.length ≠ 0 then some ready.length else none

/-- One decimal digit of a year string, or none for any other character. -/
def parseDigit (c : Char) : Option Nat :=
  if c.isDigit then some (c.toNat - 48) else none

/-- Accumulating decimal parse of a character list; none on the first
non-digit character. -/
def parseDecimalAux : List Char → Nat → Option Nat
  | [], acc => some acc
  | c :: cs, acc =>
      match parseDigit c with
      | some d => parseDecimalAux cs (acc * 10 + d)
      | none => none

/-- Decimal parse of a nonempty character list; none when empty or when any
character is not a digit. -/
def parseDecimal : List Char → Option Nat
  | [] => none
  | cs => parseDecimalAux cs 0

/-- Model of the JavaScript Number builtin restricted to the inputs the
year field produces: the empty string evaluates to 0, an optional-sign
decimal integer string to its value, and every other string to NaN, encoded
as none.  The DecisionPanel theorems are parametric in this interpreter;
jsNumber only instantiates their witnesses and counterexamples. -/
def jsNumber (s : String) : Option Int :=
  if s = "" then some 0
  else
    match s.data with
    | '-' :: rest => (parseDecimal rest).map (fun n => -(n : Int))
    | cs => (parseDecimal cs).map (fun n => (n : Int))

/-- JS string-or-undefined coercion used by buildUpdatedProposal
(PathsHeader.tsx DecisionPanel): an empty field input becomes an absent
field, any other input is kept. -/
def strOrUndef (s : String) : Option String :=
  if s = "" then none else some s

/-- The year field buildUpdatedProposal submits (PathsHeader.tsx
DecisionPanel): absent for an empty input; the parsed number when the
interpreter num (JS Number) yields one; otherwise the raw string. -/
def yearField (num : String → Option Int) (year : String) : Option YearVal :=
  if year = "" then none
  else
    match num year with
    | some n => some (YearVal.num n)
    | none => some (YearVal.str year)

/-- buildUpdatedProposal of the DecisionPanel (PathsHeader.tsx lines
128-136): spreads the stored proposal and overwrites exactly the artist,
album and year fields from the form inputs. -/
def buildUpdatedProposal (num : String → Option Int) (stored : Proposal)
    (artist album year : String) : Proposal :=
  { stored with
    artist := strOrUndef artist,
    album := strOrUndef album,
    year := yearField num year }

/-- The string the year form input is hydrated with (PathsHeader.tsx
DecisionPanel useEffect): the JS expression String of (year or empty), so an
absent year, the number 0 and the empty string all hydrate to empty. -/
def yearToInput : Option YearVal → String
  | none => ""
  | some (YearVal.num n) => if n = 0 then "" else toString n
  | some (YearVal.str s) => s

/-- Artist form input hydrated from the stored proposal (PathsHeader.tsx
DecisionPanel useEffect). -/
def hydrateArtist (p : Proposal) : String := p.artist.getD ""

/-- Album form input hydrated from the stored proposal. -/
def hydrateAlbum (p : Proposal) : String := p.album.getD ""

/-- Year form input hydrated from the stored proposal. -/
def hydrateYear (p : Proposal) : String := yearToInput p.year

/-- The proposal an accept click submits when no field was edited after
hydration (PathsHeader.tsx DecisionPanel: accept always sends
buildUpdatedProposal over the current form state). -/
def acceptUnedited (num : String → Option Int) (p : Proposal) : Proposal :=
  buildUpdatedProposal num p (hydrateArtist p) (hydrateAlbum p) (hydrateYear p)

/-- The year warning of the DecisionPanel (PathsHeader.tsx lines 123-126):
empty for an empty input, otherwise shown exactly when num (JS Number)
yields NaN. -/
def yearWarning (num : String → Option Int) (year : String) : String :=
  if year = "" then ""
  else
    match num year with
    | some _ => ""
    | none => "Year should be a number"

/-- Side conditions under which the stored year survives the hydrate and
re-parse round trip: a numeric year is nonzero, renders to a nonempty
string and is parsed back by the interpreter; a string year is nonempty and
not numeric. -/
def yearRoundTrip (num : String → Option Int) : Option YearVal → Prop
  | none => True
  | some (YearVal.num n) => n ≠ 0 ∧ toString n ≠ "" ∧ num (toString n) = some n
  | some (YearVal.str s) => s ≠ "" ∧ num s = none

/-- Display form of a year value, as JS string interpolation renders it. -/
def yearValToString : YearVal → String
  | YearVal.num n => toString n
  | YearVal.str s => s

/-- Modelled from the spec: the year suffix of the destination album
directory (spec section 4.5 convention Album (Year)); empty when the year
is absent. -/
def yearSuffix : Option YearVal → String
  | none => ""
  | some y => " (" ++ yearValToString y ++ ")"

/-- Modelled from the spec: the artist directory of the Move Worker
destination (spec section 4.5; the worker sources are not in the tree),
falling back to Unknown Artist when the field is absent. -/
def destArtistDir (p : Proposal) : String :=
  p.artist.getD "Unknown Artist"

/-- Modelled from the spec: the album directory of the Move Worker
destination, Album (Year), falling back to Unknown Album when the field is
absent. -/
def destAlbumDir (p : Proposal) : String :=
  p.album.getD "Unknown Album" ++ yearSuffix p.year

/-- Modelled from the spec: the Move Worker destination path,
target root slash Artist slash Album (Year). -/
def destPath (targetRoot : String) (p : Proposal) : String :=
  targetRoot ++ "/" ++ destArtistDir p ++ "/" ++ destAlbumDir p

/-- The Proposed Target preview of the DecisionPanel (PathsHeader.tsx line
217): artist or Unknown Artist, slash, album or Unknown Album, and the
parenthesised year when the year input is nonempty. -/
def proposedTargetPreview (artist album year : String) : String :=
  (if artist = "" then "Unknown Artist" else artist) ++ " / " ++
    (if album = "" then "Unknown Album" else album) ++
    (if year = "" then "" else " (" ++ year ++ ")")

/-- Side conditions under which a stored year hydrates to a faithful input
string: a numeric year is nonzero with a nonempty rendering, a string year
is nonempty. -/
def yearRenderOk : Option YearVal → Prop
  | none => True
  | some (YearVal.num n) => n ≠ 0 ∧ toString n ≠ ""
  | some (YearVal.str s) => s ≠ ""

/-- A recent job summary of an event update (spec section 4.6: id, status,
folder path, job type and error of the most recent jobs). -/
structure JobSummary where
  id : Nat := 0
  status : Status := Status.queued
  folder_path : String := ""
  job_type : String := ""
  error : Option String := none
  deriving DecidableEq, Repr

/-- The status view the frontend holds (App.tsx Status type): counts keyed
by status name, processed and total figures, and the ready items. -/
structure StatusView where
  counts : List (String × Nat) := []
  processed : Nat := 0
  total : Nat := 0
  ready : List ReadyItem := []
  deriving DecidableEq, Repr

/-- Modelled from the spec: one event-stream update (spec section 4.6; the
broadcaster sources are not in the tree): the full current counts, the
processed and total figures, and the recent job summaries. -/
structure EventDelta where
  counts : List (String × Nat) := []
  processed : Nat := 0
  total : Nat := 0
  recent : List JobSummary := []
  deriving DecidableEq, Repr

/-- The onmessage merge of connectSSE (App.tsx lines 112-117): a delta is
spread over the previously held status, overwriting counts, processed and
total and keeping the held ready list; with no held status, the ready list
starts empty. -/
def mergeStatus (prev : Option StatusView) (d : EventDelta) : StatusView :=
  match prev with
  | some p =>
      { counts := d.counts, processed := d.processed, total := d.total,
        ready := p.ready }
  | none =>
      { counts := d.counts, processed := d.processed, total := d.total,
        ready := [] }

/-- The effect an event-stream subscriber runs on a stream error. -/
inductive SSEErrorAction
  | closeAndReconnectAfterMs (ms : Nat)
  deriving DecidableEq, Repr

/-- The onerror handler of connectSSE (App.tsx lines 118-121): close the
EventSource and reconnect after 2000 milliseconds. -/
def connectSSE_onError : SSEErrorAction :=
  SSEErrorAction.closeAndReconnectAfterMs 2000

/-- The event-stream URL connectSSE opens and reopens (App.tsx line 111);
it carries no replay cursor or history parameter. -/
def sseUrl : String := "/api/events"

/-- The snapshot endpoint (spec section 6, GET api status). -/
def statusSnapshotUrl : String := "/api/status"

/-- The endpoints refreshStatus polls (App.tsx lines 48-63): the status
snapshot, the ready list and the debug jobs listing. -/
def refreshStatusRequests : List String :=
  ["/api/status", "/api/ready?limit=50", "/api/debug/jobs?limit=25"]

/-- One Procfile process entry: process name, the worker subcommand when
the process is a worker, and the poll-seconds flag value when present. -/
structure ProcfileEntry where
  procName : String
  subcommand : Option String := none
  pollSeconds : Option Nat := none
  deriving DecidableEq, Repr

/-- The Procfile, reduced to process names, worker subcommands and the
poll-seconds flags (Procfile lines 1-5). -/
def procfile : List ProcfileEntry :=
  [ { procName := "web" },
    { procName := "api" },
    { procName := "worker-scan", subcommand := some "scan", pollSeconds := some 300 },
    { procName := "worker-analyze", subcommand := some "analyze", pollSeconds := some 5 },
    { procName := "worker-move", subcommand := some "move", pollSeconds := some 5 } ]

/-- The poll-seconds flag of a named Procfile process. -/
def pollSecondsOf (procName : String) : Option Nat :=
  (procfile.find? (fun e => e.procName == procName)).bind (fun e => e.pollSeconds)

/-- A one-job store holding an accepted job, the configuration of the
section 8 move-race scenario. -/
def raceStore : List Job :=
  [ { id := 1, folder_path := "/music/A", job_type := "move",
      status := Status.accepted } ]

/-- A fully populated stored proposal whose year is a nonzero number. -/
def verbatimStored : Proposal :=
  { artist := some "X", album := some "Y", year := some (YearVal.num 2001),
    release_type := some "album", reasoning := some "r" }

/-- A stored proposal whose year is the numeric string 2020, as the
frontend types allow (types.ts: year may be a string or a number). -/
def storedStringYear : Proposal :=
  { artist := some "X", album := some "Y", year := some (YearVal.str "2020"),
    release_type := some "album", reasoning := some "r" }

/-- A stored proposal with artist, album and a numeric year, for the
destination preview. -/
def previewProposal : Proposal :=
  { artist := some "Radiohead", album := some "OK Computer",
    year := some (YearVal.num 1997) }

/-- A two-item ready list. -/
def readyTwo : List ReadyItem :=
  [ { path := "/a", name := "A" }, { path := "/b", name := "B" } ]

/-- Updating the status of the job with a given id commutes with looking
that id up in the store. -/
theorem find_update_store (store : List Job) (id : Nat) (nw : Status) :
    (store.map (fun k => if k.id = id then { k with status := nw } else k)).find?
        (fun j => j.id == id)
      = (store.find? (fun j => j.id == id)).map
          (fun k => if k.id = id then { k with status := nw } else k) := by
  induction store with
  | nil => rfl
  | cons a l ih =>
    by_cases h : a.id = id
    · simp [h]
    · simp [h, ih]

/-- C1: the section 4.1 state machine only produces status pairs that are
edges of the transition table; skipped and completed admit no outgoing
transition at all; and the only transition out of error is the human
reconsider trigger, back to analysis — error never re-enters the pipeline
automatically. -/
theorem C1_transitions_follow_table :
    (∀ s1 t s2, step s1 t = some s2 → (s1, s2) ∈ transitionTable) ∧
    (∀ t, step Status.skipped t = none) ∧
    (∀ t, step Status.completed t = none) ∧
    (∀ t s2, step Status.error t = some s2 →
      t = Trigger.humanReconsider ∧ isHumanTrigger t = true ∧
        s2 = Status.analyzing) := by
  refine ⟨?_, ?_, ?_, ?_⟩ <;> decide

/-- Witness for C1 at the claim edge of the analyze worker: queued to
analyzing is in the transition table. -/
theorem C1_transitions_follow_table_witness :
    (Status.queued, Status.analyzing) ∈ transitionTable :=
  C1_transitions_follow_table.1 Status.queued Trigger.analyzeClaim
    Status.analyzing rfl

/-- C3: at every aggregator snapshot the per-status counts are the
partition of all jobs by status, so their sum equals the total of all jobs
ever created, terminal ones included. -/
theorem C3_counts_sum_to_total (jobs : List Job) :
    sumOfCounts jobs = snapshotTotal jobs := by
  induction jobs with
  | nil => rfl
  | cons j rest ih =>
    have hstep : sumOfCounts (j :: rest) = sumOfCounts rest + 1 := by
      cases h : j.status <;>
        simp [sumOfCounts, snapshotCounts, allStatuses, countStatus,
          List.filter_cons, h] <;> omega
    rw [hstep, ih]
    rfl

/-- C7: the event-stream subscriber of the frontend closes the stream on an
error and reconnects after 2000 milliseconds; each received delta is merged
over the previously held status, replacing counts, processed and total and
keeping the held ready list; and recovery state comes from the snapshot
endpoint, which is among the polled refresh requests. -/
theorem C7_sse_recovery :
    connectSSE_onError = SSEErrorAction.closeAndReconnectAfterMs 2000 ∧
    (∀ (p : StatusView) (d : EventDelta),
      mergeStatus (some p) d =
        { counts := d.counts, processed := d.processed, total := d.total,
          ready := p.ready }) ∧
    (∀ d : EventDelta,
      mergeStatus none d =
        { counts := d.counts, processed := d.processed, total := d.total,
          ready := [] }) ∧
    statusSnapshotUrl ∈ refreshStatusRequests := by
  refine ⟨rfl, fun p d => rfl, fun d => rfl, by decide⟩

/-- C8: the Procfile starts the scan worker with a 300 second poll interval
and the analyze and move workers with 5 second poll intervals. -/
theorem C8_default_poll_intervals :
    pollSecondsOf "worker-scan" = some 300 ∧
    pollSecondsOf "worker-analyze" = some 5 ∧
    pollSecondsOf "worker-move" = some 5 := by
  refine ⟨by decide, by decide, by decide⟩

/-- C2: when two workers run the same compare-and-swap claim against one
job, whichever order the atomic store serialises them in, the first claim
succeeds and transitions the job to the new status, while the second
observes the stale expected status, fails, and leaves the store exactly as
it was — it performs no work on that job. -/
theorem C2_claim_race (store : List Job) (id : Nat) (expected nw : Status)
    (j0 : Job) (hfind : store.find? (fun j => j.id == id) = some j0)
    (hstat : j0.status = expected) (hne : nw ≠ expected) :
    (claimJob store id expected nw).1 = true ∧
    (claimJob (claimJob store id expected nw).2 id expected nw).1 = false ∧
    (claimJob (claimJob store id expected nw).2 id expected nw).2
      = (claimJob store id expected nw).2 ∧
    ((claimJob store id expected nw).2.find? (fun j => j.id == id)).map
        Job.status = some nw := by
  have hid : j0.id = id := by
    have h := List.find?_some hfind
    simpa using h
  have h1 : claimJob store id expected nw
      = (true,
          store.map (fun k => if k.id = id then { k with status := nw } else k)) := by
    simp [claimJob, hfind, hstat]
  have h2 : (store.map
        (fun k => if k.id = id then { k with status := nw } else k)).find?
        (fun j => j.id == id) = some { j0 with status := nw } := by
    rw [find_update_store, hfind]
    simp [hid]
  have h3 : claimJob
        (store.map (fun k => if k.id = id then { k with status := nw } else k))
        id expected nw
      = (false,
          store.map (fun k => if k.id = id then { k with status := nw } else k)) := by
    simp [claimJob, h2, hne]
  refine ⟨by simp [h1], ?_, ?_, ?_⟩
  · rw [h1]
    simpa using congrArg Prod.fst h3
  · rw [h1]
    simpa using congrArg Prod.snd h3
  · simp [h1, h2]

/-- Witness for C2 at the section 8 scenario: two move workers race on one
accepted job; the first claim to moving succeeds, the second fails. -/
theorem C2_claim_race_witness :
    (claimJob raceStore 1 Status.accepted Status.moving).1 = true ∧
    (claimJob (claimJob raceStore 1 Status.accepted Status.moving).2 1
        Status.accepted Status.moving).1 = false := by
  have h := C2_claim_race raceStore 1 Status.accepted Status.moving
    { id := 1, folder_path := "/music/A", job_type := "move",
      status := Status.accepted }
    (by decide) (by decide) (by decide)
  exact ⟨h.1, h.2.1⟩

/-- C5: a verdict against a job that is not in an eligible status is
rejected with a conflict, never applied; in particular a second skip of an
already skipped job is a conflict, not a silent success. -/
theorem C5_ineligible_verdict_conflict :
    (∀ (j : Job) (v : Verdict), verdictEligible j v = false →
      applyVerdict j v = DecisionOutcome.conflict) ∧
    (∀ j : Job, j.status = Status.skipped →
      applyVerdict j Verdict.skip = DecisionOutcome.conflict) := by
  constructor
  · intro j v h
    cases v with
    | accept o =>
        simp only [verdictEligible, beq_eq_false_iff_ne, ne_eq] at h
        simp [applyVerdict, h]
    | reconsider fb =>
        simp only [verdictEligible, Bool.or_eq_false_iff,
          beq_eq_false_iff_ne, ne_eq] at h
        simp [applyVerdict, h.1, h.2]
    | skip =>
        simp only [verdictEligible, beq_eq_false_iff_ne, ne_eq] at h
        simp [applyVerdict, h]
  · intro j h
    simp [applyVerdict, h]

/-- Witness for C5: skipping an already skipped job is a conflict. -/
theorem C5_ineligible_verdict_conflict_witness :
    applyVerdict { folder_path := "/music/B", status := Status.skipped }
        Verdict.skip = DecisionOutcome.conflict :=
  C5_ineligible_verdict_conflict.2 _ rfl

/-- C9: for every ready list, the ReadyList panel renders exactly the first
ten items in list order — its rendered length is the minimum of the list
length and ten, each rendered item is the item of the full list at the same
index, and items beyond index nine are never rendered — while the count
badge, rendered whenever the list is nonempty, shows the full list
length. -/
theorem C9_ready_panel_truncation (ready : List ReadyItem) :
    (readyListRendered ready).length = min ready.length 10 ∧
    (∀ (i : Nat) (hi : i < (readyListRendered ready).length)
        (hj : i < ready.length),
      (readyListRendered ready).get ⟨i, hi⟩ = ready.get ⟨i, hj⟩) ∧
    (ready ≠ [] → readyCountBadge ready = some ready.length) := by
  refine ⟨?_, ?_, ?_⟩
  · simp [readyListRendered, Nat.min_comm]
  · intro i hi hj
    simp [readyListRendered]
  · intro h
    simp [readyCountBadge, List.length_eq_zero, h]

/-- Witness for C9 on a two-item ready list: the badge shows 2 and the
rendered head is the first item. -/
theorem C9_ready_panel_truncation_witness :
    readyCountBadge readyTwo = some 2 :=
  (C9_ready_panel_truncation readyTwo).2.2 (by decide)

/-- C10: for every year input string, an empty input yields no year field;
a nonempty input that JS Number parses yields the parsed number; any other
nonempty input is kept as the raw string; and the year warning is shown
exactly when the input is nonempty and Number yields NaN.  Parametric in
the Number interpreter num, with none encoding NaN. -/
theorem C10_year_field_semantics (num : String → Option Int) (p : Proposal)
    (a b s : String) :
    (s = "" → (buildUpdatedProposal num p a b s).year = none) ∧
    (∀ n : Int, s ≠ "" → num s = some n →
      (buildUpdatedProposal num p a b s).year = some (YearVal.num n)) ∧
    (s ≠ "" → num s = none →
      (buildUpdatedProposal num p a b s).year = some (YearVal.str s)) ∧
    (yearWarning num s = "Year should be a number" ↔ (s ≠ "" ∧ num s = none)) := by
  refine ⟨?_, ?_, ?_, ?_, ?_⟩
  · intro h
    simp [buildUpdatedProposal, yearField, h]
  · intro n h hn
    simp [buildUpdatedProposal, yearField, h, hn]
  · intro h hn
    simp [buildUpdatedProposal, yearField, h, hn]
  · intro h
    by_cases hs : s = ""
    · rw [show yearWarning num s = "" by simp [yearWarning, hs]] at h
      exact absurd h (by decide)
    · cases hn : num s with
      | some n =>
          rw [show yearWarning num s = "" by simp [yearWarning, hs, hn]] at h
          exact absurd h (by decide)
      | none => exact ⟨hs, rfl⟩
  · rintro ⟨hs, hn⟩
    simp [yearWarning, hs, hn]

/-- Witness for C10: the year input 1999 is submitted as the number 1999,
and the non-numeric input twenty raises the warning, under the jsNumber
interpreter. -/
theorem C10_year_field_semantics_witness :
    (buildUpdatedProposal jsNumber { } "X" "Y" "1999").year
        = some (YearVal.num 1999) ∧
    yearWarning jsNumber "twenty" = "Year should be a number" := by
  have h1 := C10_year_field_semantics jsNumber { } "X" "Y" "1999"
  have h2 := C10_year_field_semantics jsNumber { } "X" "Y" "twenty"
  exact ⟨h1.2.1 1999 (by decide) (by decide),
    (h2.2.2.2).2 ⟨by decide, by decide⟩⟩

/-- Hydrating an optional string field into the form input and coercing the
input back is the identity unless the stored field is the empty string. -/
theorem strOrUndef_getD (o : Option String) (h : o ≠ some "") :
    strOrUndef (o.getD "") = o := by
  cases o with
  | none => rfl
  | some s =>
      have hs : s ≠ "" := fun he => h (by rw [he])
      simp [strOrUndef, hs]

/-- Hydrating a stored year into the form input and re-parsing it is the
identity under the round-trip side conditions. -/
theorem yearField_toInput (num : String → Option Int) (y : Option YearVal)
    (h : yearRoundTrip num y) :
    yearField num (yearToInput y) = y := by
  cases y with
  | none => rfl
  | some v =>
      cases v with
      | num n =>
          obtain ⟨h0, hts, hnum⟩ := h
          simp [yearToInput, yearField, h0, hts, hnum]
      | str s =>
          obtain ⟨hs, hnum⟩ := h
          simp [yearToInput, yearField, hs, hnum]

/-- C4 counterexample: the frontend types allow a stored year that is a
numeric string; accepting such a proposal with no edited fields does not
submit it verbatim — buildUpdatedProposal re-parses the hydrated year
input, so the string 2020 is submitted as the number 2020. -/
theorem C4_counterexample_string_year :
    acceptUnedited jsNumber storedStringYear ≠ storedStringYear ∧
    (acceptUnedited jsNumber storedStringYear).year
      = some (YearVal.num 2020) := by
  constructor
  · decide
  · decide

/-- C4 amended: an accept always submits buildUpdatedProposal, which
spreads the stored proposal and overwrites only artist, album and year, so
release type and reasoning always keep their stored values; with no edited
fields the submitted proposal equals the stored one verbatim whenever the
stored artist and album are absent or nonempty and the stored year survives
the hydrate and re-parse round trip (absent, a nonzero number that Number
parses back, or a nonempty non-numeric string).  A numeric-string year is
normalized to a number and a zero year is dropped, as the counterexample
shows. -/
theorem C4_accept_override_semantics (num : String → Option Int)
    (p : Proposal) (a b y : String)
    (ha : p.artist ≠ some "") (hb : p.album ≠ some "")
    (hy : yearRoundTrip num p.year) :
    (buildUpdatedProposal num p a b y).release_type = p.release_type ∧
    (buildUpdatedProposal num p a b y).reasoning = p.reasoning ∧
    acceptUnedited num p = p := by
  refine ⟨rfl, rfl, ?_⟩
  show buildUpdatedProposal num p (hydrateArtist p) (hydrateAlbum p)
    (hydrateYear p) = p
  rw [buildUpdatedProposal, hydrateArtist, hydrateAlbum, hydrateYear,
    strOrUndef_getD p.artist ha, strOrUndef_getD p.album hb,
    yearField_toInput num p.year hy]

/-- Witness for C4 at a fully populated stored proposal with year 2001: an
edited accept keeps the stored reasoning, and an unedited accept submits
the stored proposal verbatim. -/
theorem C4_accept_override_semantics_witness :
    (buildUpdatedProposal jsNumber verbatimStored "New Artist" "Y" "2001").reasoning
        = some "r" ∧
    acceptUnedited jsNumber verbatimStored = verbatimStored := by
  have h := C4_accept_override_semantics jsNumber verbatimStored
    "New Artist" "Y" "2001" (by decide) (by decide)
    ⟨by decide, by decide, by decide⟩
  exact ⟨h.2.1, h.2.2⟩

/-- C6: the move destination is target root slash artist directory slash
album directory, the artist directory falling back to Unknown Artist and
the album directory to Unknown Album when the fields are absent; and the
Proposed Target preview of the DecisionPanel computes the same artist,
album and parenthesised year string with the same fallbacks, on form inputs
hydrated from the proposal. -/
theorem C6_destination_path (root : String) (p : Proposal)
    (ha : p.artist ≠ some "") (hb : p.album ≠ some "")
    (hy : yearRenderOk p.year) :
    destPath root p = root ++ "/" ++ destArtistDir p ++ "/" ++ destAlbumDir p ∧
    proposedTargetPreview (hydrateArtist p) (hydrateAlbum p) (hydrateYear p)
      = destArtistDir p ++ " / " ++ destAlbumDir p := by
  refine ⟨rfl, ?_⟩
  have h1 : (if hydrateArtist p = "" then "Unknown Artist" else hydrateArtist p)
      = destArtistDir p := by
    cases hart : p.artist with
    | none => simp [hydrateArtist, destArtistDir, hart]
    | some s =>
        have hs : s ≠ "" := fun he => ha (by rw [hart, he])
        simp [hydrateArtist, destArtistDir, hart, hs]
  have h2 : (if hydrateAlbum p = "" then "Unknown Album" else hydrateAlbum p)
      = p.album.getD "Unknown Album" := by
    cases halb : p.album with
    | none => simp [hydrateAlbum, halb]
    | some s =>
        have hs : s ≠ "" := fun he => hb (by rw [halb, he])
        simp [hydrateAlbum, halb, hs]
  have h3 : (if hydrateYear p = "" then ""
        else " (" ++ hydrateYear p ++ ")") = yearSuffix p.year := by
    cases hyr : p.year with
    | none => simp [hydrateYear, yearToInput, hyr, yearSuffix]
    | some v =>
        rw [hyr] at hy
        cases v with
        | num n =>
            obtain ⟨h0, hts⟩ := hy
            simp [hydrateYear, yearToInput, hyr, yearSuffix, yearValToString,
              h0, hts]
        | str s =>
            have hs : s ≠ "" := hy
            simp [hydrateYear, yearToInput, hyr, yearSuffix, yearValToString,
              hs]
  rw [proposedTargetPreview, h1, h2, h3, destAlbumDir]
  simp [String.append_assoc]

/-- Witness for C6 at a concrete proposal: the preview of artist Radiohead,
album OK Computer and year 1997 equals the destination artist and album
directory string. -/
theorem C6_destination_path_witness :
    proposedTargetPreview (hydrateArtist previewProposal)
        (hydrateAlbum previewProposal) (hydrateYear previewProposal)
      = destArtistDir previewProposal ++ " / " ++ destAlbumDir previewProposal :=
  (C6_destination_path "/music/out" previewProposal (by decide) (by decide)
    ⟨by decide, by decide⟩).2

end WhatsThatSound

